import Mathlib

set_option maxRecDepth 40000
set_option maxHeartbeats 12000000
set_option linter.unusedVariables false

/-!
Verification development for the SIR epidemic script `src/corona.py`.

The script reads one slider value, integrates the SIR ordinary differential
equations twice (a fixed baseline scenario and the interactive scenario),
plots both infected curves and prints a formatted comparison of the two peaks.

The program-level constants, the two `deriv` functions and the summary
formatting are translated directly from the source.  The only piece of code
the script calls that is not part of the repository is the numerical solver
`scipy.integrate.odeint`; it is modelled from the spec (see `eulerStep`).
-/

namespace corona

/-- Total population, N (src/corona.py line 23). -/
def N : ℚ := 6662000

/-- Initial number of infected individuals, I0 (line 25). -/
def I0 : ℚ := 2

/-- The value bound to the name `R0` at line 25 (initial recovered count, 0).
This is the value still in scope when `S0` is computed at line 27; the name is
rebound at line 29. -/
def R0_line25 : ℚ := 0

/-- Everyone else is susceptible initially: `S0 = N - I0 - R0` (line 27,
evaluated with the line-25 value of `R0`). -/
def S0 : ℚ := N - I0 - R0_line25

/-- At line 29 the name `R0` is rebound to the basic reproduction number 6.49,
shadowing the initial recovered count.  Every later read of `R0` (including
the initial-condition vectors at lines 48 and 62) sees this value. -/
def R0 : ℚ := 6.49

/-- Recovery time `Tr = 14` days (line 30). -/
def Tr : ℚ := 14

/-- Contact time `Tc = Tr / R0` (line 31, with the line-29 value of `R0`). -/
def Tc : ℚ := Tr / R0

/-- Slider lower bound of `R0Int` (line 33). -/
def sliderMin : ℚ := 1.85

/-- Slider upper bound of `R0Int` (line 33). -/
def sliderMax : ℚ := 6.49

/-- Slider step of `R0Int` (line 33). -/
def sliderStep : ℚ := 0.05

/-- Slider default of `R0Int` (line 33). -/
def sliderDefault : ℚ := 4.00

/-- The k-th slider position: `1.85 + k * 0.05`.  The positions lying in the
slider's range `[1.85, 6.49]` are `k = 0, ..., 92` (values 1.85 to 6.45);
`1.85 + 93 * 0.05 = 6.50` already exceeds the bound 6.49. -/
def sliderValue (k : ℕ) : ℚ := sliderMin + k * sliderStep

/-- Interactive contact rate `betaInt = R0Int / Tr` (line 34), as a function
of the slider value `R0Int`. -/
def betaInt (R0Int : ℚ) : ℚ := R0Int / Tr

/-- Contact rate `beta = 1 / Tc` (line 36). -/
def beta : ℚ := 1 / Tc

/-- Recovery rate `gamma = 1 / Tr` (line 36). -/
def gamma : ℚ := 1 / Tr

/-- Initial conditions vector `y0 = S0, I0, R0` (lines 48 and 62).  By the
time these lines run, the name `R0` holds 6.49 (line 29), not the initial
recovered count 0. -/
def y0 : ℚ × ℚ × ℚ := (S0, I0, R0)

/-- The SIR model differential equations (lines 41-46). -/
def deriv (y : ℚ × ℚ × ℚ) (t : ℚ) (N beta gamma : ℚ) : ℚ × ℚ × ℚ :=
  let S := y.1
  let I := y.2.1
  let dSdt := -beta * S * I / N
  let dIdt := beta * S * I / N - gamma * I
  let dRdt := gamma * I
  (dSdt, dIdt, dRdt)

/-- The second SIR derivative definition (lines 55-60), which shadows the
first one before the second `odeint` call. -/
def derivInt (yInt : ℚ × ℚ × ℚ) (t : ℚ) (N betaInt gamma : ℚ) : ℚ × ℚ × ℚ :=
  let SInt := yInt.1
  let IInt := yInt.2.1
  let dSIntdt := -betaInt * SInt * IInt / N
  let dIIntdt := betaInt * SInt * IInt / N - gamma * IInt
  let dRIntdt := gamma * IInt
  (dSIntdt, dIIntdt, dRIntdt)

/-- Fixed-point scale: the integrator below stores compartment values as
integers in units of `10^-6` individuals. -/
def W : ℤ := 1000000

/-- The population `N` as an integer. -/
def NZ : ℤ := 6662000

/-- Susceptible component of an integrator state. -/
def Sof (y : ℤ × ℤ × ℤ) : ℤ := y.1

/-- Infected component of an integrator state. -/
def Iof (y : ℤ × ℤ × ℤ) : ℤ := y.2.1

/-- Recovered component of an integrator state. -/
def Rof (y : ℤ × ℤ × ℤ) : ℤ := y.2.2

/-- Sum of the three compartments of an integrator state. -/
def sumOf (y : ℤ × ℤ × ℤ) : ℤ := y.1 + y.2.1 + y.2.2

/-- The initial state `y0` in fixed-point units: `(S0, I0, R0) * 10^6`;
rational arithmetic does not reduce definitionally, so the components are
spelled as integer literals and `y0Z_eq_y0` proves they are exactly the
components of the program's `y0` scaled by `W`. -/
def y0Z : ℤ × ℤ × ℤ := (6661998000000, 2000000, 6490000)

/-- Modelled from the spec: the repository integrates the SIR equations with
`scipy.integrate.odeint` (src/corona.py lines 50 and 64), whose implementation
is not part of this repository.  Spec §4.1 specifies the simulator as a
numerical integration of the initial-value problem given by `deriv` evaluated
at the grid `t = np.linspace(0, 365, 365)` (365 sample points, spacing
`365/364` of a day), with no particular error tolerance.  We model one grid
step as an explicit forward-Euler step of length `dt = 365/364` on the
fixed-point state, with the two one-way flows of `deriv` (infection `S -> I`
at rate `beta * S * I / N` with `beta = bn / bd`, and recovery `I -> R` at
rate `gamma * I` with `gamma = 1/14`), each flow rounded down to the
fixed-point grid.  Rounding the flows rather than the component derivatives
keeps `S + I + R` exactly conserved, as the exact field does; note
`14 * 364 = 5096`. -/
def eulerStep (bn bd : ℤ) (y : ℤ × ℤ × ℤ) : ℤ × ℤ × ℤ :=
  let infFlow : ℤ := bn * 365 * y.1 * y.2.1 / (bd * (364 * NZ * W))
  let recFlow : ℤ := 365 * y.2.1 / 5096
  (y.1 - infFlow, y.2.1 + infFlow - recFlow, y.2.2 + recFlow)

/-- `evolve bn bd y k` is the integrator state after `k` grid steps from `y`:
the modelled value of the trajectory row at grid index `k`. -/
def evolve (bn bd : ℤ) (y : ℤ × ℤ × ℤ) : ℕ → ℤ × ℤ × ℤ
  | 0 => y
  | k + 1 => eulerStep bn bd (evolve bn bd y k)

/-- `np.amax`: the maximum of a sequence (line 115). -/
def amax : List ℤ → ℤ
  | [] => 0
  | x :: xs => xs.foldl max x

/-- `np.argmax`: the index of the FIRST occurrence of the maximum (line 116). -/
def argmax (l : List ℤ) : ℕ := l.findIdx (fun x => x == amax l)

/-- Running maximum of the infected component over the grid states, together
with the index of its first occurrence: `peakRec bn bd n y best cur` scans the
`n + 1` states `y, step y, ..., step^n y` (state `y` carrying grid index
`cur`), starting from the accumulator `best = (value, index)`, and updates the
accumulator exactly when the current infected count strictly exceeds it — so
the index returned is the first index attaining the maximum, as with
`np.argmax`. -/
def peakRec (bn bd : ℤ) : ℕ → (ℤ × ℤ × ℤ) → ℤ × ℕ → ℕ → ℤ × ℕ
  | 0, y, best, cur => if best.1 < Iof y then (Iof y, cur) else best
  | k + 1, y, best, cur =>
    if best.1 < Iof y then
      peakRec bn bd k (eulerStep bn bd y) (Iof y, cur) (cur + 1)
    else
      peakRec bn bd k (eulerStep bn bd y) best (cur + 1)

/-- The pair (peak infected count, index of its first occurrence) of the
365-point grid trajectory started from the program's `y0`, with contact rate
`bn / bd`. -/
def peakPair (bn bd : ℤ) : ℤ × ℕ := peakRec bn bd 364 y0Z (Iof y0Z, 0) 0

/-- Peak infected count of the trajectory with contact rate `bn / bd`
(`np.amax(I)` on the trajectory, line 115). -/
def peakI (bn bd : ℤ) : ℤ := (peakPair bn bd).1

/-- Grid index at which the infected series with contact rate `bn / bd` first
attains its peak (`np.argmax(I)` on the trajectory, line 116). -/
def peakIdx (bn bd : ℤ) : ℕ := (peakPair bn bd).2

/-- Baseline contact-rate numerator: `beta = 1/Tc = R0/Tr = 6.49/14 =
649/1400`. -/
def bnBase : ℤ := 649

/-- Baseline contact-rate denominator. -/
def bdBase : ℤ := 1400

/-- Interactive contact-rate numerator for the k-th slider position:
`betaInt (1.85 + k * 0.05) = (37 + k) / 280`. -/
def bnInt (k : ℕ) : ℤ := 37 + k

/-- Interactive contact-rate denominator. -/
def bdInt : ℤ := 280

/-- The suffix table of `human_format` (line 114). -/
def suffixes : List String := ["", "K", "M", "G", "T", "P"]

/-- The while-loop of `human_format` (lines 110-112): divide by 1000 while
the absolute value is at least 1000, counting the magnitude.  The fuel 5 is
the largest usable magnitude: for inputs below `1000^6` the loop runs at most
5 times; beyond that the Python code would fail with an index error. -/
def hfLoop : ℕ → ℚ → ℕ × ℚ
  | 0, num => (0, num)
  | fuel + 1, num =>
    if 1000 ≤ |num| then
      let p := hfLoop fuel (num / 1000)
      (p.1 + 1, p.2)
    else (0, num)

/-- Python's `'%.1f' % q`: render with exactly one decimal digit, rounding
ties to even as float formatting does (a negative value rounding to zero
keeps its sign, as in Python). -/
def fmt1 (q : ℚ) : String :=
  let t := q * 10
  let fl : ℤ := Rat.floor t
  let n : ℤ :=
    if (1 : ℚ) / 2 < t - (fl : ℚ) then fl + 1
    else if t - (fl : ℚ) < 1 / 2 then fl
    else if fl % 2 = 0 then fl else fl + 1
  (if n < 0 ∨ (n = 0 ∧ q < 0) then "-" else "") ++
    toString (n.natAbs / 10) ++ "." ++ toString (n.natAbs % 10)

/-- `human_format` (lines 108-114): abbreviate with magnitude suffixes at
successive 1000x thresholds and render with one decimal place. -/
def human_format (num : ℚ) : String :=
  let p := hfLoop 5 num
  fmt1 p.2 ++ suffixes.getD p.1 ""

/-- `deltaInfections = human_format(np.amax(I) - np.amax(IInt))` (line 115),
as a function of the two infected series. -/
def deltaInfectionsOf (I IInt : List ℤ) : String :=
  human_format ((amax I - amax IInt : ℤ) : ℚ)

/-- `deltaDays = np.argmax(IInt) - np.argmax(I)` (line 116), as a function of
the two infected series. -/
def deltaDaysOf (I IInt : List ℤ) : ℤ :=
  (argmax IInt : ℤ) - (argmax I : ℤ)

/-- The juxtaposition `deltaDays, 'days'` inside the `st.write` summary line
(line 118); streamlit joins consecutive arguments with a space. -/
def peakDelayText (d : ℤ) : String := toString d ++ " " ++ "days"

/-! ## Basic facts about the program constants -/

/-- The baseline contact rate evaluates to `649/1400` (= 6.49/14). -/
theorem beta_eq : beta = 649 / 1400 := by
  norm_num [beta, Tc, Tr, R0]

/-- The recovery rate evaluates to `1/14`. -/
theorem gamma_eq : gamma = 1 / 14 := by
  norm_num [gamma, Tr]

/-- The interactive contact rate at the k-th slider position is
`(37 + k) / 280`, the fraction `bnInt k / bdInt` used by the integrator. -/
theorem betaInt_slider (k : ℕ) :
    betaInt (sliderValue k) = ((bnInt k : ℤ) : ℚ) / ((bdInt : ℤ) : ℚ) := by
  simp only [betaInt, sliderValue, sliderMin, sliderStep, Tr, bnInt, bdInt]
  push_cast
  norm_num
  ring

/-- The fixed-point initial state is exactly the program's `y0` scaled by
`W = 10^6` componentwise. -/
theorem y0Z_eq_y0 :
    (y0Z.1 : ℚ) = y0.1 * (W : ℚ) ∧ (y0Z.2.1 : ℚ) = y0.2.1 * (W : ℚ) ∧
      (y0Z.2.2 : ℚ) = y0.2.2 * (W : ℚ) := by
  norm_num [y0Z, y0, S0, I0, R0, N, R0_line25, W]

/-! ## Generic facts about the integrator -/

/-- One integrator step conserves the sum S + I + R exactly. -/
theorem sumOf_eulerStep (bn bd : ℤ) (y : ℤ × ℤ × ℤ) :
    sumOf (eulerStep bn bd y) = sumOf y := by
  simp only [sumOf, eulerStep]
  ring

/-- The integrator conserves the sum S + I + R exactly along the whole
trajectory. -/
theorem sumOf_evolve (bn bd : ℤ) (y : ℤ × ℤ × ℤ) :
    ∀ k, sumOf (evolve bn bd y k) = sumOf y
  | 0 => rfl
  | k + 1 => by
    rw [evolve, sumOf_eulerStep, sumOf_evolve bn bd y k]

/-- The infection flow of one step is non-negative when the state is. -/
theorem infFlow_nonneg (bn bd : ℤ) (y : ℤ × ℤ × ℤ) (hbn : 0 ≤ bn) (hbd : 0 < bd)
    (hS : 0 ≤ y.1) (hI : 0 ≤ y.2.1) :
    0 ≤ bn * 365 * y.1 * y.2.1 / (bd * (364 * NZ * W)) := by
  refine Int.ediv_nonneg ?_ ?_
  · have h365 : (0 : ℤ) ≤ 365 := by norm_num
    exact mul_nonneg (mul_nonneg (mul_nonneg hbn h365) hS) hI
  · have : (0 : ℤ) < 364 * NZ * W := by norm_num [NZ, W]
    exact le_of_lt (mul_pos hbd this)

/-- The infection flow of one step does not exceed the susceptible stock,
provided the infected stock is within the key bound. -/
theorem infFlow_le (bn bd : ℤ) (y : ℤ × ℤ × ℤ) (hbd : 0 < bd) (hS : 0 ≤ y.1)
    (hkey : bn * 365 * y.2.1 ≤ bd * (364 * NZ * W)) :
    bn * 365 * y.1 * y.2.1 / (bd * (364 * NZ * W)) ≤ y.1 := by
  have hD : 0 < bd * (364 * NZ * W) := by
    have : (0 : ℤ) < 364 * NZ * W := by norm_num [NZ, W]
    exact mul_pos hbd this
  have h1 : bn * 365 * y.1 * y.2.1 ≤ bd * (364 * NZ * W) * y.1 := by
    have h2 := mul_le_mul_of_nonneg_right hkey hS
    have h3 : bn * 365 * y.2.1 * y.1 = bn * 365 * y.1 * y.2.1 := by ring
    rw [h3] at h2
    exact h2
  calc bn * 365 * y.1 * y.2.1 / (bd * (364 * NZ * W))
      ≤ bd * (364 * NZ * W) * y.1 / (bd * (364 * NZ * W)) := Int.ediv_le_ediv hD h1
    _ = y.1 := Int.mul_ediv_cancel_left _ hD.ne'

/-- The recovery flow of one step is non-negative when the state is. -/
theorem recFlow_nonneg (y : ℤ × ℤ × ℤ) (hI : 0 ≤ y.2.1) :
    0 ≤ 365 * y.2.1 / 5096 :=
  Int.ediv_nonneg (by linarith) (by norm_num)

/-- The recovery flow of one step does not exceed the infected stock. -/
theorem recFlow_le (y : ℤ × ℤ × ℤ) (hI : 0 ≤ y.2.1) :
    365 * y.2.1 / 5096 ≤ y.2.1 := by
  have h1 : 365 * y.2.1 ≤ 5096 * y.2.1 := by nlinarith
  calc 365 * y.2.1 / 5096 ≤ 5096 * y.2.1 / 5096 := Int.ediv_le_ediv (by norm_num) h1
    _ = y.2.1 := Int.mul_ediv_cancel_left _ (by norm_num)

/-- One integrator step keeps all three compartments non-negative, does not
increase S and does not decrease R, under the key bound
`bn * 365 * (S + I + R) ≤ bd * 364 * N * W` (amply satisfied by every contact
rate the program can use). -/
theorem eulerStep_invariant (bn bd : ℤ) (y : ℤ × ℤ × ℤ) (hbn : 0 ≤ bn) (hbd : 0 < bd)
    (hkey : bn * 365 * sumOf y ≤ bd * (364 * NZ * W))
    (hS : 0 ≤ y.1) (hI : 0 ≤ y.2.1) (hR : 0 ≤ y.2.2) :
    (0 ≤ (eulerStep bn bd y).1 ∧ 0 ≤ (eulerStep bn bd y).2.1 ∧
      0 ≤ (eulerStep bn bd y).2.2) ∧
    (eulerStep bn bd y).1 ≤ y.1 ∧ y.2.2 ≤ (eulerStep bn bd y).2.2 := by
  have hkey2 : bn * 365 * y.2.1 ≤ bd * (364 * NZ * W) := by
    refine le_trans ?_ hkey
    have hb365 : (0 : ℤ) ≤ bn * 365 := by linarith
    have hIsum : y.2.1 ≤ sumOf y := by simp only [sumOf]; linarith
    calc bn * 365 * y.2.1 ≤ bn * 365 * sumOf y := mul_le_mul_of_nonneg_left hIsum hb365
      _ = bn * 365 * sumOf y := rfl
  have hinf0 := infFlow_nonneg bn bd y hbn hbd hS hI
  have hinfle := infFlow_le bn bd y hbd hS hkey2
  have hrc0 := recFlow_nonneg y hI
  have hrcle := recFlow_le y hI
  simp only [eulerStep]
  exact ⟨⟨by linarith, by linarith, by linarith⟩, by linarith, by linarith⟩

/-- Along the whole trajectory from `y0Z`, all compartments stay non-negative
and the susceptible stock never exceeds its initial value. -/
theorem evolve_invariant (bn bd : ℤ) (hbn : 0 ≤ bn) (hbd : 0 < bd)
    (hkey : bn * 365 * sumOf y0Z ≤ bd * (364 * NZ * W)) :
    ∀ k, (0 ≤ (evolve bn bd y0Z k).1 ∧ 0 ≤ (evolve bn bd y0Z k).2.1 ∧
        0 ≤ (evolve bn bd y0Z k).2.2) ∧
      (evolve bn bd y0Z k).1 ≤ y0Z.1
  | 0 => by norm_num [evolve, y0Z]
  | k + 1 => by
    have ih := evolve_invariant bn bd hbn hbd hkey k
    have hsum : sumOf (evolve bn bd y0Z k) = sumOf y0Z := sumOf_evolve bn bd y0Z k
    have step := eulerStep_invariant bn bd (evolve bn bd y0Z k) hbn hbd
      (by rw [hsum]; exact hkey) ih.1.1 ih.1.2.1 ih.1.2.2
    rw [evolve]
    exact ⟨step.1, le_trans step.2.1 ih.2⟩

/-- One step of the trajectory from `y0Z` does not increase S and does not
decrease R. -/
theorem evolve_step_mono (bn bd : ℤ) (hbn : 0 ≤ bn) (hbd : 0 < bd)
    (hkey : bn * 365 * sumOf y0Z ≤ bd * (364 * NZ * W)) (k : ℕ) :
    (evolve bn bd y0Z (k + 1)).1 ≤ (evolve bn bd y0Z k).1 ∧
      (evolve bn bd y0Z k).2.2 ≤ (evolve bn bd y0Z (k + 1)).2.2 := by
  have ih := evolve_invariant bn bd hbn hbd hkey k
  have hsum : sumOf (evolve bn bd y0Z k) = sumOf y0Z := sumOf_evolve bn bd y0Z k
  have step := eulerStep_invariant bn bd (evolve bn bd y0Z k) hbn hbd
    (by rw [hsum]; exact hkey) ih.1.1 ih.1.2.1 ih.1.2.2
  rw [evolve]
  exact step.2

/-- S is non-increasing and R non-decreasing between any two grid indices
`i ≤ j` of the trajectory from `y0Z`. -/
theorem evolve_mono (bn bd : ℤ) (hbn : 0 ≤ bn) (hbd : 0 < bd)
    (hkey : bn * 365 * sumOf y0Z ≤ bd * (364 * NZ * W))
    (i j : ℕ) (hij : i ≤ j) :
    (evolve bn bd y0Z j).1 ≤ (evolve bn bd y0Z i).1 ∧
      (evolve bn bd y0Z i).2.2 ≤ (evolve bn bd y0Z j).2.2 := by
  induction j, hij using Nat.le_induction with
  | base => exact ⟨le_refl _, le_refl _⟩
  | succ n hn ih =>
    have step := evolve_step_mono bn bd hbn hbd hkey n
    exact ⟨le_trans step.1 ih.1, le_trans ih.2 step.2⟩

/-- The key bound holds for the baseline contact rate 649/1400. -/
theorem hkey_base : bnBase * 365 * sumOf y0Z ≤ bdBase * (364 * NZ * W) := by decide

/-- The key bound holds for every slider position `k < 93`. -/
theorem hkey_int (k : ℕ) (hk : k < 93) :
    bnInt k * 365 * sumOf y0Z ≤ bdInt * (364 * NZ * W) := by
  simp only [bnInt, bdInt, NZ, W, sumOf, y0Z]
  omega

/-- Comparison of two floor divisions by cross multiplication. -/
theorem ediv_le_ediv_cross {a b c d : ℤ} (hb : 0 < b) (hd : 0 < d)
    (h : a * d ≤ c * b) : a / b ≤ c / d := by
  rw [Int.le_ediv_iff_mul_le hd]
  have h1 : a / b * b ≤ a := Int.ediv_mul_le a hb.ne'
  have h3 := mul_le_mul_of_nonneg_right h1 hd.le
  have h5 : a / b * d * b ≤ c * b := by
    calc a / b * d * b = a / b * b * d := by ring
      _ ≤ a * d := h3
      _ ≤ c * b := h
  exact le_of_mul_le_mul_right h5 hb

/-- When `R0 = 14 * bn / bd < 1`, one integrator step does not increase the
infected stock (the recovery flow dominates the infection flow, because the
susceptible stock never exceeds its initial value `S0 * W < N * W`). -/
theorem I_step_le (bn bd : ℤ) (y : ℤ × ℤ × ℤ) (hbn : 0 ≤ bn) (h14 : 14 * bn < bd)
    (hS0 : y.1 ≤ 6661998000000) (hS : 0 ≤ y.1) (hI : 0 ≤ y.2.1) :
    (eulerStep bn bd y).2.1 ≤ y.2.1 := by
  have hbd : 0 < bd := by omega
  have hkeyS : 14 * bn * y.1 ≤ bd * (NZ * W) := by
    have hb1 : 14 * bn ≤ bd - 1 := by omega
    have c1 : 14 * bn * y.1 ≤ (bd - 1) * y.1 := mul_le_mul_of_nonneg_right hb1 hS
    have c2 : (bd - 1) * y.1 ≤ (bd - 1) * 6661998000000 :=
      mul_le_mul_of_nonneg_left hS0 (by omega)
    have hNW : NZ * W = 6662000000000 := by norm_num [NZ, W]
    rw [hNW]
    nlinarith [c1, c2, hbd]
  have hcross : bn * 365 * y.1 * y.2.1 * 5096 ≤ 365 * y.2.1 * (bd * (364 * NZ * W)) := by
    have h5 : 14 * bn * y.1 * y.2.1 ≤ bd * (NZ * W) * y.2.1 :=
      mul_le_mul_of_nonneg_right hkeyS hI
    nlinarith [h5]
  have hflow := ediv_le_ediv_cross
    (mul_pos hbd (by norm_num [NZ, W] : (0 : ℤ) < 364 * NZ * W))
    (by norm_num : (0 : ℤ) < 5096) hcross
  simp only [eulerStep]
  linarith [hflow]

/-- When `R0 = 14 * bn / bd < 1`, the infected stock of the trajectory from
`y0Z` is non-increasing from the very first grid point on. -/
theorem I_nonincreasing (bn bd : ℤ) (hbn : 0 ≤ bn) (h14 : 14 * bn < bd) (i : ℕ) :
    (evolve bn bd y0Z (i + 1)).2.1 ≤ (evolve bn bd y0Z i).2.1 := by
  have hbd : 0 < bd := by omega
  have hkey : bn * 365 * sumOf y0Z ≤ bd * (364 * NZ * W) := by
    simp only [sumOf, y0Z, NZ, W]
    omega
  have inv := evolve_invariant bn bd hbn hbd hkey i
  have hS0 : (evolve bn bd y0Z i).1 ≤ 6661998000000 := by
    have h := inv.2
    simpa [y0Z] using h
  rw [evolve]
  exact I_step_le bn bd (evolve bn bd y0Z i) hbn h14 hS0 inv.1.1 inv.1.2.1

/-! ## Generic facts about `np.amax` / `np.argmax` on lists -/

/-- The seed of a running maximum never exceeds the result. -/
theorem le_foldl_max (l : List ℤ) (a : ℤ) : a ≤ l.foldl max a := by
  induction l generalizing a with
  | nil => exact le_refl a
  | cons b t ih =>
    simp only [List.foldl_cons]
    exact le_trans (le_max_left a b) (ih (max a b))

/-- Every element of the list is bounded by the running maximum. -/
theorem mem_le_foldl_max (l : List ℤ) (a : ℤ) : ∀ x ∈ l, x ≤ l.foldl max a := by
  induction l generalizing a with
  | nil => intro x hx; simp at hx
  | cons b t ih =>
    intro x hx
    simp only [List.foldl_cons]
    rcases List.mem_cons.mp hx with h | h
    · subst h
      exact le_trans (le_max_right a x) (le_foldl_max t (max a x))
    · exact ih (max a b) x h

/-- The running maximum is the seed or some element of the list. -/
theorem foldl_max_mem (l : List ℤ) (a : ℤ) :
    l.foldl max a = a ∨ l.foldl max a ∈ l := by
  induction l generalizing a with
  | nil => left; rfl
  | cons b t ih =>
    simp only [List.foldl_cons]
    rcases ih (max a b) with h | h
    · rcases max_choice a b with h2 | h2
      · left; rw [h, h2]
      · right; rw [h, h2]; exact List.mem_cons_self b t
    · right; exact List.mem_cons_of_mem b h

/-- `np.amax` of a non-empty sequence is attained by the sequence. -/
theorem amax_mem (l : List ℤ) (h : l ≠ []) : amax l ∈ l := by
  cases l with
  | nil => exact absurd rfl h
  | cons x t =>
    rcases foldl_max_mem t x with h2 | h2
    · rw [amax, h2]; exact List.mem_cons_self x t
    · rw [amax]; exact List.mem_cons_of_mem x h2

/-- `np.amax` bounds every element of the sequence. -/
theorem le_amax (l : List ℤ) (x : ℤ) (hx : x ∈ l) : x ≤ amax l := by
  cases l with
  | nil => simp at hx
  | cons y t =>
    rcases List.mem_cons.mp hx with h | h
    · subst h; exact le_foldl_max t x
    · exact mem_le_foldl_max t y x h

/-- `np.argmax` of a non-empty sequence is a valid index. -/
theorem argmax_lt_length (l : List ℤ) (h : l ≠ []) : argmax l < l.length := by
  apply List.findIdx_lt_length_of_exists
  exact ⟨amax l, amax_mem l h, by simp⟩

/-- The element at index `np.argmax` is the maximum. -/
theorem argmax_getD (l : List ℤ) (h : l ≠ []) : l.getD (argmax l) 0 = amax l := by
  have hlt := argmax_lt_length l h
  have h2 := @List.findIdx_getElem ℤ (fun x => x == amax l) l hlt
  rw [List.getD_eq_getElem?_getD, List.getElem?_eq_getElem hlt, Option.getD_some]
  simpa using h2

/-- `np.argmax` returns the FIRST index attaining the maximum: every earlier
index holds a strictly different (hence smaller) value. -/
theorem argmax_first (l : List ℤ) (h : l ≠ []) (j : ℕ) (hj : j < argmax l) :
    l.getD j 0 ≠ amax l := by
  have hlt : j < l.length := lt_trans hj (argmax_lt_length l h)
  have h2 := @List.not_of_lt_findIdx ℤ (fun x => x == amax l) l j hj
  rw [List.getD_eq_getElem?_getD, List.getElem?_eq_getElem hlt, Option.getD_some]
  simpa using h2

/-- With a zero infected seed the integrator state never changes. -/
theorem evolve_zero_I (bn bd s r : ℤ) : ∀ k, evolve bn bd (s, 0, r) k = (s, 0, r)
  | 0 => rfl
  | k + 1 => by
    rw [evolve, evolve_zero_I bn bd s r k]
    simp [eulerStep]

/-! ## The claims -/

/-- C1: for every grid index and for both the baseline and the interactive
trajectory, S + I + R is exactly the conserved initial total `N * W +
6490000` (that is, `N + 6.49` individuals), which is within `1e-6` relative
tolerance of the population `N`: `10^6 * |sum - N*W| = 6.49 * 10^12 ≤ N * W =
6.662 * 10^12`. -/
theorem C1_conservation (i k : ℕ) (hi : i ≤ 364) (hk : k < 93) :
    sumOf (evolve bnBase bdBase y0Z i) = NZ * W + 6490000 ∧
    sumOf (evolve (bnInt k) bdInt y0Z i) = NZ * W + 6490000 ∧
    1000000 * |sumOf (evolve bnBase bdBase y0Z i) - NZ * W| ≤ NZ * W ∧
    1000000 * |sumOf (evolve (bnInt k) bdInt y0Z i) - NZ * W| ≤ NZ * W := by
  have h0 : sumOf y0Z = NZ * W + 6490000 := by norm_num [sumOf, y0Z, NZ, W]
  have h1 : sumOf (evolve bnBase bdBase y0Z i) = NZ * W + 6490000 := by
    rw [sumOf_evolve, h0]
  have h2 : sumOf (evolve (bnInt k) bdInt y0Z i) = NZ * W + 6490000 := by
    rw [sumOf_evolve, h0]
  refine ⟨h1, h2, ?_, ?_⟩
  · rw [h1]
    norm_num [NZ, W]
  · rw [h2]
    norm_num [NZ, W]

/-- Witness for C1 at grid index 3 and slider position 5. -/
theorem C1_conservation_witness :
    sumOf (evolve bnBase bdBase y0Z 3) = NZ * W + 6490000 ∧
    sumOf (evolve (bnInt 5) bdInt y0Z 3) = NZ * W + 6490000 ∧
    1000000 * |sumOf (evolve bnBase bdBase y0Z 3) - NZ * W| ≤ NZ * W ∧
    1000000 * |sumOf (evolve (bnInt 5) bdInt y0Z 3) - NZ * W| ≤ NZ * W :=
  C1_conservation 3 5 (by norm_num) (by norm_num)

/-- C2: at lines 48 and 62 the name `R0` holds the reproduction number 6.49
(rebound at line 29), not the initial recovered count 0, so both `odeint`
invocations start from `(S, I, R) = (6661998, 2, 6.49)`; the recovered
component actually passed is 6.49, not 0, and the initial components sum to
`N + 6.49`, not `N`. -/
theorem C2_y0_shadowed :
    y0 = (6661998, 2, 6.49) ∧ y0.2.2 = 6.49 ∧ (6.49 : ℚ) ≠ R0_line25 ∧
    y0.1 + y0.2.1 + y0.2.2 = N + 6.49 ∧ y0.1 + y0.2.1 + y0.2.2 ≠ N := by
  refine ⟨?_, ?_, ?_, ?_, ?_⟩ <;>
    norm_num [y0, S0, I0, R0, N, R0_line25, Prod.ext_iff]

/-- C4: in both trajectories produced by the program, S is non-increasing
and R is non-decreasing across the full time grid. -/
theorem C4_monotonicity (k i j : ℕ) (hk : k < 93) (hij : i ≤ j) (hj : j ≤ 364) :
    (Sof (evolve bnBase bdBase y0Z j) ≤ Sof (evolve bnBase bdBase y0Z i) ∧
      Rof (evolve bnBase bdBase y0Z i) ≤ Rof (evolve bnBase bdBase y0Z j)) ∧
    (Sof (evolve (bnInt k) bdInt y0Z j) ≤ Sof (evolve (bnInt k) bdInt y0Z i) ∧
      Rof (evolve (bnInt k) bdInt y0Z i) ≤ Rof (evolve (bnInt k) bdInt y0Z j)) := by
  constructor
  · exact evolve_mono bnBase bdBase (by norm_num [bnBase]) (by norm_num [bdBase])
      hkey_base i j hij
  · exact evolve_mono (bnInt k) bdInt (by simp [bnInt]; omega) (by norm_num [bdInt])
      (hkey_int k hk) i j hij

/-- Witness for C4 at slider position 5 and grid indices 2 ≤ 7. -/
theorem C4_monotonicity_witness :
    (Sof (evolve bnBase bdBase y0Z 7) ≤ Sof (evolve bnBase bdBase y0Z 2) ∧
      Rof (evolve bnBase bdBase y0Z 2) ≤ Rof (evolve bnBase bdBase y0Z 7)) ∧
    (Sof (evolve (bnInt 5) bdInt y0Z 7) ≤ Sof (evolve (bnInt 5) bdInt y0Z 2) ∧
      Rof (evolve (bnInt 5) bdInt y0Z 2) ≤ Rof (evolve (bnInt 5) bdInt y0Z 7)) :=
  C4_monotonicity 5 2 7 (by norm_num) (by norm_num) (by norm_num)

/-- C9: with a zero infected seed, the infected component of the trajectory
is identically zero (and the program's derivative function vanishes on such
states, so there is nothing to integrate forward). -/
theorem C9_zero_seed (bn bd s r : ℤ) (k : ℕ) (S R t Np b g : ℚ) :
    Iof (evolve bn bd (s, 0, r) k) = 0 ∧ deriv (S, 0, R) t Np b g = (0, 0, 0) := by
  constructor
  · rw [evolve_zero_I]
    rfl
  · simp [deriv, Prod.ext_iff]

/-- C10: the two `deriv` definitions (lines 41-46 and the shadowing
lines 55-60) are extensionally equal: on every state, time and parameter
triple they return identical derivative tuples, so the two `odeint` calls
integrate one and the same vector field, differing only in the contact-rate
argument (in this development both trajectories are literally `evolve` with
different `bn/bd`). -/
theorem C10_deriv_extensional :
    ∀ (y : ℚ × ℚ × ℚ) (t Np b g : ℚ), deriv y t Np b g = derivInt y t Np b g :=
  fun _ _ _ _ _ => rfl

/-- C6: the delta-formatting routine abbreviates with the suffix table
`['', 'K', 'M', 'G', 'T', 'P']` at successive 1000x thresholds and renders
one decimal place: the example peaks 1,200,000 and 450,000 yield the delta
string "750.0K", and a peak-day difference of 23 is reported as the integer
23 followed by the word 'days'. -/
theorem C6_formatting :
    human_format ((1200000 : ℚ) - 450000) = "750.0K" ∧
    human_format 999 = "999.0" ∧
    human_format 1000 = "1.0K" ∧
    human_format 1000000 = "1.0M" ∧
    suffixes = ["", "K", "M", "G", "T", "P"] ∧
    peakDelayText 23 = "23 days" := by
  refine ⟨?_, ?_, ?_, ?_, rfl, by decide⟩ <;>
    · norm_num [human_format, hfLoop, fmt1, suffixes, Rat.floor_def']
      rfl

/-- C7: the summary quantities are exactly the stated reductions: `np.amax`
is the maximum of the series (attained, and bounding every element),
`np.argmax` is the first index attaining that maximum, the impact reduction
is the baseline peak minus the interactive peak, and the peak delay is the
interactive argmax minus the baseline argmax. -/
theorem C7_summary (I IInt : List ℤ) (hI : I ≠ []) (hIInt : IInt ≠ []) :
    (amax I ∈ I ∧ ∀ x ∈ I, x ≤ amax I) ∧
    (argmax I < I.length ∧ I.getD (argmax I) 0 = amax I ∧
      ∀ j, j < argmax I → I.getD j 0 ≠ amax I) ∧
    deltaInfectionsOf I IInt = human_format (((amax I - amax IInt : ℤ) : ℚ)) ∧
    deltaDaysOf I IInt = (argmax IInt : ℤ) - (argmax I : ℤ) :=
  ⟨⟨amax_mem I hI, fun x hx => le_amax I x hx⟩,
    ⟨argmax_lt_length I hI, argmax_getD I hI, fun j hj => argmax_first I hI j hj⟩,
    rfl, rfl⟩

/-- Witness for C7 on the concrete series [1, 3, 2] and [2]. -/
theorem C7_summary_witness :
    (amax [1, 3, 2] ∈ [(1 : ℤ), 3, 2] ∧ ∀ x ∈ [(1 : ℤ), 3, 2], x ≤ amax [1, 3, 2]) ∧
    (argmax [1, 3, 2] < [(1 : ℤ), 3, 2].length ∧
      [(1 : ℤ), 3, 2].getD (argmax [1, 3, 2]) 0 = amax [1, 3, 2] ∧
      ∀ j, j < argmax [(1 : ℤ), 3, 2] → [(1 : ℤ), 3, 2].getD j 0 ≠ amax [1, 3, 2]) ∧
    deltaInfectionsOf [1, 3, 2] [2] = human_format (((amax [1, 3, 2] - amax [2] : ℤ) : ℚ)) ∧
    deltaDaysOf [1, 3, 2] [2] = (argmax [(2 : ℤ)] : ℤ) - (argmax [(1 : ℤ), 3, 2] : ℤ) :=
  C7_summary [1, 3, 2] [2] (by simp) (by simp)

/-- C3 counterexample: the parameter sets the claim lists are not the
repository's.  In the code the initial infected count is 2 (not 1), the
baseline contact rate is 1/Tc = 6.49/14 = 649/1400 ≈ 0.464 (not 0.55), and
the interactive contact rate at the minimum slider value 1.85 is 37/280 ≈
0.132, below the claimed interactive range 0.2-0.4. -/
theorem C3_parameters_cex :
    I0 = 2 ∧ I0 ≠ 1 ∧ beta = 649 / 1400 ∧ beta ≠ 55 / 100 ∧
    betaInt sliderMin = 37 / 280 ∧ betaInt sliderMin < 2 / 10 := by
  refine ⟨rfl, by norm_num [I0], beta_eq, ?_, ?_, ?_⟩ <;>
    norm_num [beta, Tc, Tr, R0, betaInt, sliderMin]

/-- Peak data of the baseline trajectory, by evaluation. -/
theorem peak_base : peakPair bnBase bdBase = (3903964117616, 49) := by decide

/-- Peak data at the minimum slider position, by evaluation. -/
theorem peak_min : peakPair (bnInt 0) bdInt = (858471588050, 247) := by decide

/-- Peak bounds for slider positions 0-9, by evaluation (the bounds are the
baseline peak data and the minimum-slider peak value). -/
theorem peak_chunk0 : ∀ m, m < 10 →
    (peakPair (bnInt m) bdInt).1 < 3903964117616 ∧
    49 ≤ (peakPair (bnInt m) bdInt).2 ∧
    858471588050 ≤ (peakPair (bnInt m) bdInt).1 := by decide

/-- Peak bounds for slider positions 10-19, by evaluation. -/
theorem peak_chunk1 : ∀ m, m < 10 →
    (peakPair (bnInt (10 + m)) bdInt).1 < 3903964117616 ∧
    49 ≤ (peakPair (bnInt (10 + m)) bdInt).2 ∧
    858471588050 ≤ (peakPair (bnInt (10 + m)) bdInt).1 := by decide

/-- Peak bounds for slider positions 20-29, by evaluation. -/
theorem peak_chunk2 : ∀ m, m < 10 →
    (peakPair (bnInt (20 + m)) bdInt).1 < 3903964117616 ∧
    49 ≤ (peakPair (bnInt (20 + m)) bdInt).2 ∧
    858471588050 ≤ (peakPair (bnInt (20 + m)) bdInt).1 := by decide

/-- Peak bounds for slider positions 30-39, by evaluation. -/
theorem peak_chunk3 : ∀ m, m < 10 →
    (peakPair (bnInt (30 + m)) bdInt).1 < 3903964117616 ∧
    49 ≤ (peakPair (bnInt (30 + m)) bdInt).2 ∧
    858471588050 ≤ (peakPair (bnInt (30 + m)) bdInt).1 := by decide

/-- Peak bounds for slider positions 40-49, by evaluation. -/
theorem peak_chunk4 : ∀ m, m < 10 →
    (peakPair (bnInt (40 + m)) bdInt).1 < 3903964117616 ∧
    49 ≤ (peakPair (bnInt (40 + m)) bdInt).2 ∧
    858471588050 ≤ (peakPair (bnInt (40 + m)) bdInt).1 := by decide

/-- Peak bounds for slider positions 50-59, by evaluation. -/
theorem peak_chunk5 : ∀ m, m < 10 →
    (peakPair (bnInt (50 + m)) bdInt).1 < 3903964117616 ∧
    49 ≤ (peakPair (bnInt (50 + m)) bdInt).2 ∧
    858471588050 ≤ (peakPair (bnInt (50 + m)) bdInt).1 := by decide

/-- Peak bounds for slider positions 60-69, by evaluation. -/
theorem peak_chunk6 : ∀ m, m < 10 →
    (peakPair (bnInt (60 + m)) bdInt).1 < 3903964117616 ∧
    49 ≤ (peakPair (bnInt (60 + m)) bdInt).2 ∧
    858471588050 ≤ (peakPair (bnInt (60 + m)) bdInt).1 := by decide

/-- Peak bounds for slider positions 70-79, by evaluation. -/
theorem peak_chunk7 : ∀ m, m < 10 →
    (peakPair (bnInt (70 + m)) bdInt).1 < 3903964117616 ∧
    49 ≤ (peakPair (bnInt (70 + m)) bdInt).2 ∧
    858471588050 ≤ (peakPair (bnInt (70 + m)) bdInt).1 := by decide

/-- Peak bounds for slider positions 80-89, by evaluation. -/
theorem peak_chunk8 : ∀ m, m < 10 →
    (peakPair (bnInt (80 + m)) bdInt).1 < 3903964117616 ∧
    49 ≤ (peakPair (bnInt (80 + m)) bdInt).2 ∧
    858471588050 ≤ (peakPair (bnInt (80 + m)) bdInt).1 := by decide

/-- Peak bounds for slider positions 90-92, by evaluation. -/
theorem peak_chunk9 : ∀ m, m < 3 →
    (peakPair (bnInt (90 + m)) bdInt).1 < 3903964117616 ∧
    49 ≤ (peakPair (bnInt (90 + m)) bdInt).2 ∧
    858471588050 ≤ (peakPair (bnInt (90 + m)) bdInt).1 := by decide

/-- Peak bounds for every allowed slider position, assembled from the chunk
evaluations. -/
theorem peak_bounds (k : ℕ) (hk : k < 93) :
    (peakPair (bnInt k) bdInt).1 < 3903964117616 ∧
    49 ≤ (peakPair (bnInt k) bdInt).2 ∧
    858471588050 ≤ (peakPair (bnInt k) bdInt).1 := by
  rcases Nat.lt_or_ge k 10 with h | h
  · exact peak_chunk0 k h
  rcases Nat.lt_or_ge k 20 with h2 | h2
  · have t := peak_chunk1 (k - 10) (by omega)
    have e : 10 + (k - 10) = k := by omega
    rwa [e] at t
  rcases Nat.lt_or_ge k 30 with h3 | h3
  · have t := peak_chunk2 (k - 20) (by omega)
    have e : 20 + (k - 20) = k := by omega
    rwa [e] at t
  rcases Nat.lt_or_ge k 40 with h4 | h4
  · have t := peak_chunk3 (k - 30) (by omega)
    have e : 30 + (k - 30) = k := by omega
    rwa [e] at t
  rcases Nat.lt_or_ge k 50 with h5 | h5
  · have t := peak_chunk4 (k - 40) (by omega)
    have e : 40 + (k - 40) = k := by omega
    rwa [e] at t
  rcases Nat.lt_or_ge k 60 with h6 | h6
  · have t := peak_chunk5 (k - 50) (by omega)
    have e : 50 + (k - 50) = k := by omega
    rwa [e] at t
  rcases Nat.lt_or_ge k 70 with h7 | h7
  · have t := peak_chunk6 (k - 60) (by omega)
    have e : 60 + (k - 60) = k := by omega
    rwa [e] at t
  rcases Nat.lt_or_ge k 80 with h8 | h8
  · have t := peak_chunk7 (k - 70) (by omega)
    have e : 70 + (k - 70) = k := by omega
    rwa [e] at t
  rcases Nat.lt_or_ge k 90 with h9 | h9
  · have t := peak_chunk8 (k - 80) (by omega)
    have e : 80 + (k - 80) = k := by omega
    rwa [e] at t
  · have t := peak_chunk9 (k - 90) (by omega)
    have e : 90 + (k - 90) = k := by omega
    rwa [e] at t

/-- C3 (amended to the repository's actual parameters: N = 6662000, I0 = 2,
initial recovered component 6.49 by the rebinding of R0, gamma = 1/14,
baseline beta = 649/1400, interactive beta = (37 + k)/280 at the k-th of the
93 slider positions 1.85 + 0.05k): for every allowed slider position, the
baseline peak infected count strictly exceeds the interactive peak infected
count, and the interactive peak occurs at a grid index no earlier than the
baseline peak. -/
theorem C3_scenario_ordering (k : ℕ) (hk : k < 93) :
    peakI (bnInt k) bdInt < peakI bnBase bdBase ∧
    peakIdx bnBase bdBase ≤ peakIdx (bnInt k) bdInt := by
  have h := peak_bounds k hk
  constructor
  · show (peakPair (bnInt k) bdInt).1 < (peakPair bnBase bdBase).1
    rw [peak_base]
    exact h.1
  · show (peakPair bnBase bdBase).2 ≤ (peakPair (bnInt k) bdInt).2
    rw [peak_base]
    exact h.2.1

/-- Witness for C3 at the minimum slider position. -/
theorem C3_scenario_ordering_witness :
    peakI (bnInt 0) bdInt < peakI bnBase bdBase ∧
    peakIdx bnBase bdBase ≤ peakIdx (bnInt 0) bdInt :=
  C3_scenario_ordering 0 (by norm_num)

/-- C8: the peak infected count at the minimum allowed slider value
(R0Int = 1.85, contact rate 37/280) is at most the peak at every higher
allowed slider position, and also at most the peak at the upper endpoint
rate 6.49/14 = 649/1400 itself. -/
theorem C8_peak_monotone_boundary :
    (∀ k, k < 93 → peakI (bnInt 0) bdInt ≤ peakI (bnInt k) bdInt) ∧
    peakI (bnInt 0) bdInt ≤ peakI bnBase bdBase := by
  constructor
  · intro k hk
    have h := (peak_bounds k hk).2.2
    show (peakPair (bnInt 0) bdInt).1 ≤ (peakPair (bnInt k) bdInt).1
    rw [peak_min]
    exact h
  · show (peakPair (bnInt 0) bdInt).1 ≤ (peakPair bnBase bdBase).1
    rw [peak_min, peak_base]
    norm_num

/-- Witness for C8 at slider position 7. -/
theorem C8_peak_monotone_boundary_witness :
    peakI (bnInt 0) bdInt ≤ peakI (bnInt 7) bdInt :=
  C8_peak_monotone_boundary.1 7 (by norm_num)

/-- C5 counterexample: at contact rate beta = 10000001/140000000 the basic
reproduction number beta/gamma = 1.0000001 exceeds 1, yet the infected count
never exceeds its initial value anywhere on the grid (its running maximum is
the initial value): the claimed threshold at R0 = 1 is off, because S0/N =
6661998/6662000 < 1, so growth at t = 0 needs beta * S0 / N > gamma, that is
R0 > N/S0, and for 1 < R0 ≤ N/S0 the infected count only decays. -/
theorem C5_threshold_cex :
    gamma = 1 / 14 ∧
    (1 : ℚ) < 10000001 / 140000000 / gamma ∧
    peakI 10000001 140000000 ≤ Iof y0Z := by
  refine ⟨gamma_eq, ?_, by decide⟩
  rw [gamma_eq]
  norm_num

/-- C5 (amended): (a) for every allowed slider value — all of which have
R0 ≥ 1.85, far above the effective threshold N/S0 — the infected count
exceeds its initial value at some positive grid time; (b) whenever
R0 = 14 * bn / bd < 1, the infected count is non-increasing from t = 0
across the whole trajectory. -/
theorem C5_threshold :
    (∀ k, k < 93 →
      ∃ i, i < 365 ∧ 0 < i ∧ Iof y0Z < Iof (evolve (bnInt k) bdInt y0Z i)) ∧
    (∀ (bn bd : ℤ) (i : ℕ), 0 ≤ bn → 14 * bn < bd →
      Iof (evolve bn bd y0Z (i + 1)) ≤ Iof (evolve bn bd y0Z i)) := by
  constructor
  · decide
  · intro bn bd i hbn h14
    exact I_nonincreasing bn bd hbn h14 i

/-- Witness for C5: growth at the minimum slider value, decay at the
sub-threshold rate beta = 1/15 (R0 = 14/15 < 1). -/
theorem C5_threshold_witness :
    (∃ i, i < 365 ∧ 0 < i ∧ Iof y0Z < Iof (evolve (bnInt 0) bdInt y0Z i)) ∧
    Iof (evolve 1 15 y0Z 1) ≤ Iof (evolve 1 15 y0Z 0) :=
  ⟨C5_threshold.1 0 (by norm_num), C5_threshold.2 1 15 0 (by norm_num) (by norm_num)⟩

end corona
